import Mathlib

/-!
Shallow embedding of `src/ckanext/doi/plugin.py` (CKAN DOI plugin,
`DOIPlugin.after_create`, `DOIPlugin.after_update`, `DOIPlugin.after_show`)
together with models of the collaborators the plugin calls
(`ckanext.doi.lib`, `ckanext.doi.model.doi`), which are not part of the
source tree and are therefore modelled from the spec.

Python-specific points preserved by the embedding:
* `hasattr(pkg_dict, "doi_auto_create")` on a plain dict tests for an
  attribute of the dict object, not for a key, so it is false for every
  dict (modelled by `pyDictHasAttr` over the genuine Python 2 dict
  attribute names);
* `doi.identifier is not pkg_dict['identifier']` is an object-identity
  test, so strings are modelled as `PyStr` (object id plus value);
* `doi.identifier` when `doi` is `None` raises `AttributeError`;
* handlers may raise; effects performed before the raise persist
  (store mutations, emitted events).
-/

namespace CkanextDoi

/-- A Python string object: `oid` is the CPython object identity,
`val` the character content. `a is b` compares `oid`; `a == b` compares
`val`. Two live objects with the same `oid` are the same object and
hence have the same `val`; theorems needing this assume it explicitly. -/
structure PyStr where
  oid : Nat
  val : String
deriving DecidableEq, Repr

/-- A calendar timestamp, as much of `datetime` as the plugin observes. -/
structure PyDate where
  year : Nat
  month : Nat
  day : Nat
deriving DecidableEq, Repr

/-- A row of the DOI table (`ckanext.doi.model.doi`): identifier,
owning package id, and the nullable `published` timestamp
(`none` = minted locally but not registered externally). -/
structure DOIRecord where
  package_id : String
  identifier : PyStr
  published : Option PyDate
deriving DecidableEq, Repr

/-- The dataset snapshot (`pkg_dict`) as the plugin reads it.
`doi_auto_create` records whether the key `'doi_auto_create'` is present
in the dict; `identifier` is `none` for Python `None`; `priv` models the
`'private'` key; `state`, `priv` may be absent (the code reads them with
`.get` and a default). -/
structure PkgDict where
  id : String
  doi_auto_create : Bool
  identifier : Option PyStr
  identifier_type : Option String
  state : Option String
  priv : Option Bool
  title : Option String
  author : Option String
  metadata_created : Option String
deriving DecidableEq, Repr

/-- Truthiness of `pkg_dict['identifier']`: Python `None` and the empty
string are falsy. -/
def pyTruthyStr : Option PyStr → Bool
  | none => false
  | some s => s.val ≠ ""

/-- The metadata payload handed to DataCite.
Modelled from the spec: `build(snapshot, record) → metadata payload`
maps the dataset fields required by the external schema (at minimum
title and author) plus the record's identifier and the creation date. -/
structure MetadataDict where
  identifier : String
  title : Option String
  author : Option String
  created : Option String
deriving DecidableEq, Repr

/-- Errors a handler invocation can raise. -/
inductive PyError where
  /-- attribute access on `None` (e.g. `doi.identifier` with `doi = None`). -/
  | attributeError
  /-- `validate_metadata` failed: a mandatory field is missing. -/
  | validationError
  /-- an error propagated from the DataCite client. -/
  | dataCiteError
deriving DecidableEq, Repr

/-- One observable outbound effect of a handler invocation. -/
inductive Event where
  /-- `record_existing_unique_identifier`: registering a user-supplied
  literal identifier with the Registration Service. -/
  | registerExisting (package_id : String) (identifier : String)
  /-- `publish_doi`: a publish call carrying the metadata payload. -/
  | publish (package_id : String) (md : MetadataDict)
  /-- `update_doi`: an update call carrying the metadata payload. -/
  | update (package_id : String) (md : MetadataDict)
  /-- `h.flash_success(msg)`: a user-visible success notification. -/
  | flashSuccess (msg : String)
deriving DecidableEq, Repr

/-- The persisted DOI table: a list of rows. -/
abbrev Store := List DOIRecord

/-- External inputs fixed for one handler invocation: collaborator
results and configuration. -/
structure Env where
  /-- result of `get_action('package_show')`: the original (pre-save) snapshot. -/
  origPkg : PkgDict
  /-- the identifier newly minted by `create_unique_identifier`. -/
  mintedId : PyStr
  /-- whether `record_existing_unique_identifier`'s external registration succeeds. -/
  regExistingOk : Bool
  /-- the timestamp stamped by a successful `publish_doi`. -/
  now : PyDate
  /-- whether the DataCite publish call raises. -/
  publishRaises : Bool
  /-- whether the DataCite update call raises. -/
  updateRaises : Bool
  /-- the configured site URL (`get_site_url`). -/
  site_url : String
  /-- `config.get("ckanext.doi.publisher")`: `none` when unset. -/
  publisher : Option String

/-- `get_doi(package_id)`: look up the DOI row for a dataset id.
Modelled from the spec: `find(dataset_id) → Record|absent`. -/
def get_doi (store : Store) (pid : String) : Option DOIRecord :=
  store.find? fun r => decide (r.package_id = pid)

/-- `create_unique_identifier(package_id)`.
Modelled from the spec: mint a new locally-unique identifier and persist
a new, unpublished DOI Record for this dataset id; idempotent against
double-invocation — if a DOI Record already exists for the dataset id,
do not create a second one. Returns the store and the record. -/
def create_unique_identifier (env : Env) (store : Store) (pid : String) :
    Store × DOIRecord :=
  match get_doi store pid with
  | some r => (store, r)
  | none =>
    let r : DOIRecord := ⟨pid, env.mintedId, none⟩
    (r :: store, r)

/-- `record_existing_unique_identifier(package_id, identifier)`.
Modelled from the spec: `register_existing(dataset_id, literal_identifier)
→ Record|failure` — attempt to register the externally-supplied
identifier with the Registration Service; on success persist and return
an unpublished record (re-registration re-enters `absent → unpublished`;
duplicate creation is prevented proactively by existence checks); on
failure return nothing. The registration call is attempted either way. -/
def record_existing_unique_identifier (env : Env) (store : Store)
    (pid : String) (ident : PyStr) : Store × Option DOIRecord × List Event :=
  let evs := [Event.registerExisting pid ident.val]
  if env.regExistingOk then
    match get_doi store pid with
    | some r => (store, some r, evs)
    | none =>
      let r : DOIRecord := ⟨pid, ident, none⟩
      (r :: store, some r, evs)
  else (store, none, evs)

/-- `doi.delete()`: remove the row from the DOI table. The Python object
held by the local variable stays alive (and stale) after this. -/
def deleteRecord (store : Store) (r : DOIRecord) : Store :=
  store.filter fun x => decide (x ≠ r)

/-- `build_metadata(pkg_dict, doi)`.
Modelled from the spec: maps dataset fields to the external schema —
the record's identifier plus the snapshot's title, author and creation
date. -/
def build_metadata (pkg : PkgDict) (doi : DOIRecord) : MetadataDict :=
  ⟨doi.identifier.val, pkg.title, pkg.author, pkg.metadata_created⟩

/-- `validate_metadata(metadata_dict)`.
Modelled from the spec: validate that the mandatory fields (at the very
least title and author) are present; fail loudly (raise) if a required
field is missing. -/
def validate_metadata (md : MetadataDict) : Except PyError Unit :=
  if md.title = none ∨ md.author = none then .error .validationError
  else .ok ()

/-- `publish_doi(package_id, **metadata_dict)`.
Modelled from the spec: issue a publish call unconditionally, which both
registers the identifier and stamps the record's `published` timestamp;
a failure of the external call propagates as an unhandled error (and the
stamp is not committed). -/
def publish_doi (env : Env) (store : Store) (pid : String)
    (md : MetadataDict) : Except PyError Unit × Store × List Event :=
  let evs := [Event.publish pid md]
  if env.publishRaises then (.error .dataCiteError, store, evs)
  else
    (.ok (), store.map fun r =>
      if r.package_id = pid then { r with published := some env.now } else r,
     evs)

/-- `update_doi(package_id, **metadata_dict)`.
Modelled from the spec: issue an update call to the Registration
Service; a failure propagates as an unhandled error. -/
def update_doi (env : Env) (pid : String) (md : MetadataDict) :
    Except PyError Unit × List Event :=
  if env.updateRaises then (.error .dataCiteError, [Event.update pid md])
  else (.ok (), [Event.update pid md])

/-- `get_site_url()`. Modelled from the spec: returns the configured
site URL (protocol included; the caller strips it). -/
def get_site_url (env : Env) : String := env.site_url

/-- The genuine attribute names of a Python 2 `dict` object (methods);
`hasattr(d, name)` on a plain dict is true exactly for these (and for
dunder attributes, none of which the plugin tests for). -/
def pyDictAttributeNames : List String :=
  ["clear", "copy", "fromkeys", "get", "has_key", "items", "iteritems",
   "iterkeys", "itervalues", "keys", "pop", "popitem", "setdefault",
   "update", "values", "viewitems", "viewkeys", "viewvalues"]

/-- `hasattr(pkg_dict, name)` for a plain dict `pkg_dict`: true only for
the dict type's own attributes, never for the dict's keys. -/
def pyDictHasAttr (name : String) : Bool :=
  pyDictAttributeNames.contains name

deriving instance DecidableEq for Except

/-- Outcome of one `after_update` invocation: the returned (or raised)
value, the DOI table afterwards, and the outbound effects in order. -/
structure UpdateResult where
  result : Except PyError PkgDict
  store : Store
  events : List Event
deriving DecidableEq, Repr

/-- `DOIPlugin.after_create(context, pkg_dict)` (plugin.py lines 44-57):
`if hasattr(pkg_dict, "doi_auto_create"): create_unique_identifier(pkg_dict['id'])`;
returns `pkg_dict`. -/
def after_create (env : Env) (store : Store) (pkg : PkgDict) :
    PkgDict × Store :=
  if pyDictHasAttr "doi_auto_create" then
    (pkg, (create_unique_identifier env store pkg.id).1)
  else (pkg, store)

/-- Lines 128-158 of `after_update`: the publication branch. Entered for
every invocation that did not return earlier; `doi` is the local
variable at that point (possibly `None`, possibly a stale deleted row).
With `doi = None` the code raises `AttributeError`
(`build_metadata(pkg_dict, doi)` reads record fields, and line 139 reads
`doi.published`) before any publish or update call. -/
def publication (env : Env) (store : Store) (pkg orig : PkgDict)
    (doi : Option DOIRecord) : UpdateResult :=
  if pkg.state.getD "active" = "active" ∧ ¬(pkg.priv.getD false) then
    match doi with
    | none => ⟨.error .attributeError, store, []⟩
    | some d =>
      let md := build_metadata pkg d
      match validate_metadata md with
      | .error e => ⟨.error e, store, []⟩
      | .ok _ =>
        match d.published with
        | some _ =>
          let orig_md := build_metadata orig d
          if orig_md = md then ⟨.ok pkg, store, []⟩
          else
            let u := update_doi env pkg.id md
            match u.1 with
            | .error e => ⟨.error e, store, u.2⟩
            | .ok _ =>
              ⟨.ok pkg, store,
               u.2 ++ [Event.flashSuccess "DataCite DOI metadata updated"]⟩
        | none =>
          let p := publish_doi env store pkg.id md
          match p.1 with
          | .error e =>
            ⟨.error e, p.2.1,
             Event.flashSuccess "DataCite DOI created" :: p.2.2⟩
          | .ok _ =>
            ⟨.ok pkg, p.2.1,
             Event.flashSuccess "DataCite DOI created" :: p.2.2⟩
  else ⟨.ok pkg, store, []⟩

/-- Lines 94-126 of `after_update`: the no-DOI branch, the existing-DOI
branch (with the `is not` identity test on line 110), the
`identifier_type == 'other'` branch, then fall-through to `publication`.
`doi` is the local variable after the auto-create block. -/
def after_update_main (env : Env) (store : Store) (pkg orig : PkgDict)
    (doi : Option DOIRecord) : UpdateResult :=
  match doi with
  | none =>
    match pkg.identifier with
    | some s =>
      if s.val ≠ "" ∧ pkg.identifier_type = some "doi" then
        match record_existing_unique_identifier env store pkg.id s with
        | (store1, newdoi, evs) =>
          let r := publication env store1 pkg orig
            (match newdoi with | some nd => some nd | none => none)
          { r with events := evs ++ r.events }
      else ⟨.ok pkg, store, []⟩
    | none => ⟨.ok pkg, store, []⟩
  | some d =>
    match pkg.identifier with
    | some s =>
      if s.val ≠ "" ∧ pkg.identifier_type = some "doi" then
        if d.identifier.oid ≠ s.oid then
          let store1 := deleteRecord store d
          match record_existing_unique_identifier env store1 pkg.id s with
          | (store2, newdoi, evs) =>
            let r := publication env store2 pkg orig
              (match newdoi with | some nd => some nd | none => some d)
            { r with events := evs ++ r.events }
        else publication env store pkg orig (some d)
      else if pkg.identifier_type = some "other" then
        ⟨.ok pkg, deleteRecord store d, []⟩
      else publication env store pkg orig (some d)
    | none =>
      if pkg.identifier_type = some "other" then
        ⟨.ok pkg, deleteRecord store d, []⟩
      else publication env store pkg orig (some d)

/-- `DOIPlugin.after_update(context, pkg_dict)` (plugin.py lines 61-158).
Loads the original snapshot, copies `metadata_created` onto the incoming
snapshot, loads the DOI row, runs the `doi_auto_create` block (lines
83-90: `create_unique_identifier`'s return value is discarded, so when
no row existed the local `doi` is still `None` and line 87
`pkg_dict['identifier'] = doi.identifier` raises `AttributeError` while
the freshly minted row persists), then the remaining branches. -/
def after_update (env : Env) (store : Store) (pkg0 : PkgDict) : UpdateResult :=
  let orig := env.origPkg
  let pkg := { pkg0 with metadata_created := orig.metadata_created }
  let doi := get_doi store pkg.id
  if pkg.doi_auto_create then
    match doi with
    | none =>
      let store1 := (create_unique_identifier env store pkg.id).1
      ⟨.error .attributeError, store1, []⟩
    | some d =>
      let pkg1 := { pkg with identifier := some d.identifier,
                             identifier_type := some "doi",
                             doi_auto_create := false }
      after_update_main env store pkg1 orig (some d)
  else after_update_main env store pkg orig doi

/-- Left-to-right zero padding of day/month numbers (`%m`, `%d`). -/
def pad2 (n : Nat) : String :=
  if n < 10 then "0" ++ toString n else toString n

/-- Zero padding of the year (`%Y`). -/
def pad4 (n : Nat) : String :=
  if n < 10 then "000" ++ toString n
  else if n < 100 then "00" ++ toString n
  else if n < 1000 then "0" ++ toString n
  else toString n

/-- `datetime.strftime(d, "%Y-%m-%d")`. -/
def formatYMD (d : PyDate) : String :=
  pad4 d.year ++ "-" ++ pad2 d.month ++ "-" ++ pad2 d.day

/-- Fuel-bounded worker for `pyReplace`: replaces non-overlapping
occurrences of `pat` left to right, as Python's `str.replace` does. -/
def replaceLoop : Nat → List Char → List Char → List Char → List Char
  | 0, s, _, _ => s
  | fuel + 1, s, pat, rep =>
    match s with
    | [] => []
    | c :: rest =>
      if pat.isPrefixOf s then rep ++ replaceLoop fuel (s.drop pat.length) pat rep
      else c :: replaceLoop fuel rest pat rep

/-- Python's `str.replace(old, new)`: every non-overlapping occurrence
of `old` is replaced, scanning left to right (structural recursion so
concrete instances reduce). -/
def pyReplace (s old new : String) : String :=
  ⟨replaceLoop s.data.length s.data old.data new.data⟩

/-- The snapshot handed to `after_show`, with the five annotation keys
the handler may add. An outer `none` means the key is absent from the
dict; `some none` means the key is present with value `None`. -/
structure ShowPkg where
  pkg : PkgDict
  doi : Option String
  doi_status : Option Bool
  domain : Option String
  doi_date_published : Option (Option String)
  doi_publisher : Option (Option String)
deriving DecidableEq, Repr

/-- `DOIPlugin.after_show(context, pkg_dict)` (plugin.py lines 161-170):
look up the DOI row; if present set the five annotation keys (note
`get_site_url().replace('http://', '')` removes only the literal
substring `http://`, and `doi_date_published` is set to `None` — the key
stays present — when unpublished); otherwise do nothing. The store is
only read. -/
def after_show (env : Env) (store : Store) (pkg : ShowPkg) :
    ShowPkg × Store :=
  match get_doi store pkg.pkg.id with
  | none => (pkg, store)
  | some d =>
    ({ pkg with
        doi := some d.identifier.val,
        doi_status := some d.published.isSome,
        domain := some (pyReplace env.site_url "http://" ""),
        doi_date_published := some (d.published.map formatYMD),
        doi_publisher := some env.publisher },
     store)

/-- One lifecycle invocation, for reasoning about sequences of calls. -/
inductive Op where
  | create (env : Env) (pkg : PkgDict)
  | update (env : Env) (pkg : PkgDict)

/-- The DOI table after one invocation (effects performed before a raise
persist). -/
def stepStore (store : Store) : Op → Store
  | .create env pkg => (after_create env store pkg).2
  | .update env pkg => (after_update env store pkg).store

/-- The DOI table after a sequence of invocations. -/
def run (store : Store) : List Op → Store
  | [] => store
  | op :: ops => run (stepStore store op) ops

/-- Number of DOI rows for a given dataset id. -/
def countFor (store : Store) (pid : String) : Nat :=
  (store.filter fun r => decide (r.package_id = pid)).length

/-- At most one DOI row per dataset id. -/
def InvariantStore (store : Store) : Prop :=
  ∀ pid, countFor store pid ≤ 1

/-- Number of outbound Registration Service calls in a trace
(register-existing, publish and update counted together). -/
def rsCallCount (evs : List Event) : Nat :=
  (evs.filter fun e =>
    match e with
    | .registerExisting _ _ => true
    | .publish _ _ => true
    | .update _ _ => true
    | .flashSuccess _ => false).length

/-- Number of publish and update calls in a trace. -/
def pubUpdCount (evs : List Event) : Nat :=
  (evs.filter fun e =>
    match e with
    | .publish _ _ => true
    | .update _ _ => true
    | _ => false).length

/-- Number of publish calls in a trace. -/
def publishCount (evs : List Event) : Nat :=
  (evs.filter fun e =>
    match e with
    | .publish _ _ => true
    | _ => false).length

/-- Number of update calls in a trace. -/
def updateCount (evs : List Event) : Nat :=
  (evs.filter fun e =>
    match e with
    | .update _ _ => true
    | _ => false).length

/-! ### Concrete inputs used to exercise the handlers -/

/-- An original (pre-save) snapshot as returned by `package_show`. -/
def origSnap : PkgDict :=
  ⟨"d1", false, none, none, some "active", some false, some "Title",
   some "Author", some "2024-01-01"⟩

/-- A baseline environment: external registration of a user-supplied
identifier fails, DataCite calls succeed, `http` site URL. -/
def envBase : Env :=
  ⟨origSnap, ⟨10, "10.5072/M1"⟩, false, ⟨2025, 6, 1⟩, false, false,
   "http://example.com", some "Example Publisher"⟩

/-- The same environment with a succeeding external registration. -/
def envRegOk : Env := { envBase with regExistingOk := true }

/-- A snapshot carrying the `doi_auto_create` key. -/
def pkgAuto : PkgDict :=
  ⟨"d1", true, none, none, none, none, some "T", some "A", none⟩

/-- A snapshot supplying an externally-obtained DOI, active and public. -/
def pkgUserDoi : PkgDict :=
  ⟨"d1", false, some ⟨1, "10.5072/X"⟩, some "doi", some "active",
   some false, some "T", some "A", none⟩

/-- A DOI row published in 2024 whose identifier string object has
object id 1. -/
def recPublished : DOIRecord := ⟨"d1", ⟨1, "10.5072/FK2"⟩, some ⟨2024, 1, 1⟩⟩

/-- A snapshot naming the same identifier value `10.5072/FK2` as
`recPublished`, but as a distinct string object (object id 2), with the
dataset still in draft. -/
def pkgSameDoiValue : PkgDict :=
  ⟨"d1", false, some ⟨2, "10.5072/FK2"⟩, some "doi", some "draft",
   some false, some "T", some "A", none⟩

/-- An unpublished DOI row for dataset `d1`. -/
def recUnpublished : DOIRecord := ⟨"d1", ⟨1, "10.5072/P"⟩, none⟩

/-- A published DOI row for dataset `d1` with the same identifier. -/
def recPublishedP : DOIRecord := ⟨"d1", ⟨1, "10.5072/P"⟩, some ⟨2024, 1, 1⟩⟩

/-- An active, public snapshot whose title and author agree with
`origSnap`. -/
def pkgUnchanged : PkgDict :=
  ⟨"d1", false, some ⟨1, "10.5072/P"⟩, some "doi", some "active",
   some false, some "Title", some "Author", some "2024-01-01"⟩

/-- The same snapshot with the title missing. -/
def pkgNoTitle : PkgDict := { pkgUnchanged with title := none }

/-- An environment whose configured site URL uses `https`. -/
def envHttps : Env := { envBase with site_url := "https://example.com" }

/-- An `after_show` input snapshot with no annotation keys present. -/
def showPkgPlain : ShowPkg :=
  ⟨⟨"d1", false, none, none, none, none, none, none, none⟩,
   none, none, none, none, none⟩

/-! ### Counting and invariant lemmas -/

theorem countFor_nil (pid : String) : countFor [] pid = 0 := rfl

theorem countFor_cons (r : DOIRecord) (s : Store) (pid : String) :
    countFor (r :: s) pid
      = (if r.package_id = pid then 1 else 0) + countFor s pid := by
  by_cases h : r.package_id = pid <;>
    simp [countFor, List.filter_cons, h, Nat.add_comm]

theorem countFor_filter_le (p : DOIRecord → Bool) (s : Store) (pid : String) :
    countFor (s.filter p) pid ≤ countFor s pid := by
  induction s with
  | nil => simp [countFor]
  | cons r t ih =>
    by_cases hp : p r <;> by_cases hq : r.package_id = pid <;>
      simp [countFor, List.filter_cons, hp, hq] at ih ⊢ <;> omega

theorem countFor_of_get_doi_none {s : Store} {pid : String}
    (h : get_doi s pid = none) : countFor s pid = 0 := by
  unfold get_doi at h
  rw [List.find?_eq_none] at h
  unfold countFor
  rw [List.length_eq_zero, List.filter_eq_nil_iff]
  intro r hr
  simpa using h r hr

theorem countFor_stamp (s : Store) (pid pid2 : String) (t : PyDate) :
    countFor
      (s.map fun r =>
        if r.package_id = pid2 then { r with published := some t } else r)
      pid = countFor s pid := by
  unfold countFor
  rw [List.filter_map, List.length_map]
  congr 1
  apply List.filter_congr
  intro r _
  by_cases h : r.package_id = pid2 <;> simp [h]

theorem inv_create_unique_identifier (env : Env) {s : Store} (pid : String)
    (h : InvariantStore s) :
    InvariantStore (create_unique_identifier env s pid).1 := by
  unfold create_unique_identifier
  cases hfind : get_doi s pid with
  | some r => simpa using h
  | none =>
    intro pid2
    simp only
    rw [countFor_cons]
    by_cases hp : pid = pid2
    · subst hp
      rw [countFor_of_get_doi_none hfind]
      simp
    · simpa [hp] using h pid2

theorem inv_record_existing (env : Env) {s : Store} (pid : String)
    (ident : PyStr) (h : InvariantStore s) :
    InvariantStore (record_existing_unique_identifier env s pid ident).1 := by
  unfold record_existing_unique_identifier
  by_cases hok : env.regExistingOk
  · simp only [hok, if_true]
    cases hfind : get_doi s pid with
    | some r => simpa using h
    | none =>
      intro pid2
      simp only
      rw [countFor_cons]
      by_cases hp : pid = pid2
      · subst hp
        rw [countFor_of_get_doi_none hfind]
        simp
      · simpa [hp] using h pid2
  · simpa [hok] using h

theorem inv_deleteRecord {s : Store} (r : DOIRecord)
    (h : InvariantStore s) : InvariantStore (deleteRecord s r) := by
  intro pid
  exact le_trans (countFor_filter_le _ s pid) (h pid)

theorem inv_publish_doi (env : Env) {s : Store} (pid : String)
    (md : MetadataDict) (h : InvariantStore s) :
    InvariantStore (publish_doi env s pid md).2.1 := by
  unfold publish_doi
  by_cases hr : env.publishRaises
  · simpa [hr] using h
  · intro pid2
    simpa [hr, countFor_stamp] using h pid2

theorem inv_publication (env : Env) {s : Store} (pkg orig : PkgDict)
    (doi : Option DOIRecord) (h : InvariantStore s) :
    InvariantStore (publication env s pkg orig doi).store := by
  unfold publication
  split
  · cases doi with
    | none => exact h
    | some d =>
      simp only
      split
      · exact h
      · split
        · split
          · exact h
          · split <;> exact h
        · split <;> exact inv_publish_doi env pkg.id (build_metadata pkg d) h
  · exact h

theorem inv_after_update_main (env : Env) {s : Store} (pkg orig : PkgDict)
    (doi : Option DOIRecord) (h : InvariantStore s) :
    InvariantStore (after_update_main env s pkg orig doi).store := by
  unfold after_update_main
  cases doi with
  | none =>
    cases pkg.identifier with
    | none => exact h
    | some ps =>
      simp only
      split
      · split <;>
          exact inv_publication env pkg orig _
            (inv_record_existing env pkg.id ps h)
      · exact h
  | some d =>
    cases pkg.identifier with
    | none =>
      simp only
      split
      · exact inv_deleteRecord d h
      · exact inv_publication env pkg orig (some d) h
    | some ps =>
      simp only
      split
      · split
        · split <;>
            exact inv_publication env pkg orig _
              (inv_record_existing env pkg.id ps (inv_deleteRecord d h))
        · exact inv_publication env pkg orig (some d) h
      · split
        · exact inv_deleteRecord d h
        · exact inv_publication env pkg orig (some d) h

theorem inv_after_update (env : Env) {s : Store} (pkg : PkgDict)
    (h : InvariantStore s) :
    InvariantStore (after_update env s pkg).store := by
  unfold after_update
  dsimp only
  split
  · split
    · exact inv_create_unique_identifier env _ h
    · exact inv_after_update_main env _ _ _ h
  · exact inv_after_update_main env _ _ _ h

theorem inv_after_create (env : Env) {s : Store} (pkg : PkgDict)
    (h : InvariantStore s) :
    InvariantStore (after_create env s pkg).2 := by
  unfold after_create
  split
  · exact inv_create_unique_identifier env _ h
  · exact h

/-! ### Trace lemmas -/

theorem update_doi_events (env : Env) (pid : String) (md : MetadataDict) :
    (update_doi env pid md).2 = [Event.update pid md] := by
  unfold update_doi; split <;> rfl

theorem update_doi_error {env : Env} {pid : String} {md : MetadataDict}
    {e : PyError} (h : (update_doi env pid md).1 = .error e) :
    e = .dataCiteError := by
  unfold update_doi at h
  split at h <;> simp_all

theorem publish_doi_events (env : Env) (s : Store) (pid : String)
    (md : MetadataDict) :
    (publish_doi env s pid md).2.2 = [Event.publish pid md] := by
  unfold publish_doi; split <;> rfl

theorem publish_doi_error {env : Env} {s : Store} {pid : String}
    {md : MetadataDict} {e : PyError}
    (h : (publish_doi env s pid md).1 = .error e) :
    e = .dataCiteError := by
  unfold publish_doi at h
  split at h <;> simp_all

theorem record_existing_events (env : Env) (s : Store) (pid : String)
    (ident : PyStr) :
    (record_existing_unique_identifier env s pid ident).2.2
      = [Event.registerExisting pid ident.val] := by
  unfold record_existing_unique_identifier
  split
  · split <;> rfl
  · rfl

/-- The publication branch emits one of four traces: nothing, an update
call (whose flash may be cut off by a raise), an update call followed by
its flash, or the created-flash followed by a publish call; every
publish/update payload passed `validate_metadata`. -/
theorem publication_events_shape (env : Env) (s : Store) (pkg orig : PkgDict)
    (doi : Option DOIRecord) :
    (publication env s pkg orig doi).events = [] ∨
    (∃ md, (publication env s pkg orig doi).events = [Event.update pkg.id md]
        ∧ validate_metadata md = .ok ()) ∨
    (∃ md, (publication env s pkg orig doi).events
          = [Event.update pkg.id md,
             Event.flashSuccess "DataCite DOI metadata updated"]
        ∧ validate_metadata md = .ok ()) ∨
    (∃ md, (publication env s pkg orig doi).events
          = [Event.flashSuccess "DataCite DOI created",
             Event.publish pkg.id md]
        ∧ validate_metadata md = .ok ()) := by
  unfold publication
  split
  · cases doi with
    | none => exact Or.inl rfl
    | some d =>
      simp only
      split
      · exact Or.inl rfl
      · next u0 heq =>
        have hok : validate_metadata (build_metadata pkg d) = .ok () := by
          cases u0; exact heq
        split
        · split
          · exact Or.inl rfl
          · split
            · exact Or.inr (Or.inl
                ⟨build_metadata pkg d, by rw [update_doi_events], hok⟩)
            · exact Or.inr (Or.inr (Or.inl
                ⟨build_metadata pkg d,
                 by rw [update_doi_events]; rfl, hok⟩))
        · split <;>
            exact Or.inr (Or.inr (Or.inr
              ⟨build_metadata pkg d,
               by rw [publish_doi_events], hok⟩))
  · exact Or.inl rfl

theorem pubUpdCount_append (a b : List Event) :
    pubUpdCount (a ++ b) = pubUpdCount a + pubUpdCount b := by
  simp [pubUpdCount, List.filter_append]

theorem rsCallCount_append (a b : List Event) :
    rsCallCount (a ++ b) = rsCallCount a + rsCallCount b := by
  simp [rsCallCount, List.filter_append]

theorem publication_counts (env : Env) (s : Store) (pkg orig : PkgDict)
    (doi : Option DOIRecord) :
    pubUpdCount (publication env s pkg orig doi).events ≤ 1 ∧
    rsCallCount (publication env s pkg orig doi).events ≤ 1 := by
  rcases publication_events_shape env s pkg orig doi with
    h | ⟨md, h, _⟩ | ⟨md, h, _⟩ | ⟨md, h, _⟩ <;> rw [h]
  · exact ⟨Nat.zero_le _, Nat.zero_le _⟩
  · exact ⟨Nat.le_refl 1, Nat.le_refl 1⟩
  · exact ⟨Nat.le_refl 1, Nat.le_refl 1⟩
  · exact ⟨Nat.le_refl 1, Nat.le_refl 1⟩

theorem pubUpdCount_register (pid idv : String) :
    pubUpdCount [Event.registerExisting pid idv] = 0 := rfl

theorem rsCallCount_register (pid idv : String) :
    rsCallCount [Event.registerExisting pid idv] = 1 := rfl

theorem main_counts (env : Env) (s : Store) (pkg orig : PkgDict)
    (doi : Option DOIRecord) :
    pubUpdCount (after_update_main env s pkg orig doi).events ≤ 1 ∧
    rsCallCount (after_update_main env s pkg orig doi).events ≤ 2 := by
  unfold after_update_main
  cases doi with
  | none =>
    cases pkg.identifier with
    | none => exact ⟨Nat.zero_le _, Nat.zero_le _⟩
    | some ps =>
      simp only
      split
      · dsimp only
        rw [record_existing_events, pubUpdCount_append, rsCallCount_append,
            pubUpdCount_register, rsCallCount_register]
        exact ⟨Nat.add_le_add_left (publication_counts env _ pkg orig _).1 0,
               Nat.add_le_add_left (publication_counts env _ pkg orig _).2 1⟩
      · exact ⟨Nat.zero_le _, Nat.zero_le _⟩
  | some d =>
    cases pkg.identifier with
    | none =>
      simp only
      split
      · exact ⟨Nat.zero_le _, Nat.zero_le _⟩
      · obtain ⟨h1, h2⟩ := publication_counts env s pkg orig (some d)
        exact ⟨h1, by omega⟩
    | some ps =>
      simp only
      split
      · split
        · dsimp only
          rw [record_existing_events, pubUpdCount_append, rsCallCount_append,
              pubUpdCount_register, rsCallCount_register]
          exact ⟨Nat.add_le_add_left (publication_counts env _ pkg orig _).1 0,
                 Nat.add_le_add_left (publication_counts env _ pkg orig _).2 1⟩
        · obtain ⟨h1, h2⟩ := publication_counts env s pkg orig (some d)
          exact ⟨h1, by omega⟩
      · split
        · exact ⟨Nat.zero_le _, Nat.zero_le _⟩
        · obtain ⟨h1, h2⟩ := publication_counts env s pkg orig (some d)
          exact ⟨h1, by omega⟩

theorem after_update_counts (env : Env) (s : Store) (pkg : PkgDict) :
    pubUpdCount (after_update env s pkg).events ≤ 1 ∧
    rsCallCount (after_update env s pkg).events ≤ 2 := by
  unfold after_update
  dsimp only
  split
  · split
    · exact ⟨Nat.zero_le _, Nat.zero_le _⟩
    · exact main_counts env s _ _ _
  · exact main_counts env s _ _ _

/-- If the publication branch raised the metadata validation error, it
emitted no events at all. -/
theorem publication_error_validation (env : Env) (s : Store)
    (pkg orig : PkgDict) (doi : Option DOIRecord) :
    (publication env s pkg orig doi).result = .error .validationError →
    (publication env s pkg orig doi).events = [] := by
  unfold publication
  split
  · cases doi with
    | none => intro h; simp at h
    | some d =>
      simp only
      split
      · intro _; rfl
      · split
        · split
          · intro _; rfl
          · split
            · next e heq =>
              intro h
              have he := update_doi_error heq
              subst he
              simp at h
            · intro h; simp at h
        · split
          · next e heq =>
            intro h
            have he := publish_doi_error heq
            subst he
            simp at h
          · intro h; simp at h
  · intro h; simp at h

theorem main_error_validation (env : Env) (s : Store) (pkg orig : PkgDict)
    (doi : Option DOIRecord) :
    (after_update_main env s pkg orig doi).result = .error .validationError →
    pubUpdCount (after_update_main env s pkg orig doi).events = 0 := by
  unfold after_update_main
  cases doi with
  | none =>
    cases pkg.identifier with
    | none => intro h; simp at h
    | some ps =>
      simp only
      split
      · dsimp only
        intro h
        rw [record_existing_events, pubUpdCount_append,
            publication_error_validation _ _ _ _ _ h]
        rfl
      · intro h; simp at h
  | some d =>
    cases pkg.identifier with
    | none =>
      simp only
      split
      · intro h; simp at h
      · intro h
        rw [publication_error_validation _ _ _ _ _ h]
        rfl
    | some ps =>
      simp only
      split
      · split
        · dsimp only
          intro h
          rw [record_existing_events, pubUpdCount_append,
              publication_error_validation _ _ _ _ _ h]
          rfl
        · intro h
          rw [publication_error_validation _ _ _ _ _ h]
          rfl
      · split
        · intro h; simp at h
        · intro h
          rw [publication_error_validation _ _ _ _ _ h]
          rfl

/-- Every publish or update payload appearing in a publication-branch
trace passed `validate_metadata`. -/
theorem publication_event_validated {env : Env} {s : Store}
    {pkg orig : PkgDict} {doi : Option DOIRecord} {pid : String}
    {md : MetadataDict}
    (h : Event.publish pid md ∈ (publication env s pkg orig doi).events ∨
         Event.update pid md ∈ (publication env s pkg orig doi).events) :
    validate_metadata md = .ok () := by
  rcases publication_events_shape env s pkg orig doi with
    hsh | ⟨md2, hsh, hok⟩ | ⟨md2, hsh, hok⟩ | ⟨md2, hsh, hok⟩ <;>
    rw [hsh] at h <;> rcases h with h | h <;> simp_all

theorem main_event_validated (env : Env) (s : Store) (pkg orig : PkgDict)
    (doi : Option DOIRecord) (pid : String) (md : MetadataDict) :
    (Event.publish pid md ∈ (after_update_main env s pkg orig doi).events ∨
     Event.update pid md ∈ (after_update_main env s pkg orig doi).events) →
    validate_metadata md = .ok () := by
  unfold after_update_main
  cases doi with
  | none =>
    cases pkg.identifier with
    | none => intro h; simp at h
    | some ps =>
      simp only
      split <;> intro h <;>
        first
        | exact publication_event_validated h
        | (dsimp only at h; rw [record_existing_events] at h; simp at h;
           exact publication_event_validated h)
        | simp at h
  | some d =>
    cases pkg.identifier with
    | none =>
      simp only
      split <;> intro h <;>
        first
        | exact publication_event_validated h
        | simp at h
    | some ps =>
      simp only
      split
      · split <;> intro h <;>
          first
          | exact publication_event_validated h
          | (dsimp only at h; rw [record_existing_events] at h; simp at h;
             exact publication_event_validated h)
      · split <;> intro h <;>
          first
          | exact publication_event_validated h
          | simp at h

theorem inv_run {s : Store} (ops : List Op) (h : InvariantStore s) :
    InvariantStore (run s ops) := by
  induction ops generalizing s with
  | nil => exact h
  | cons op rest ih =>
    cases op with
    | create env pkg => exact ih (inv_after_create env pkg h)
    | update env pkg => exact ih (inv_after_update env pkg h)

theorem after_update_error_validation (env : Env) (s : Store) (pkg : PkgDict) :
    (after_update env s pkg).result = .error .validationError →
    pubUpdCount (after_update env s pkg).events = 0 := by
  unfold after_update
  dsimp only
  split
  · split
    · intro h; simp at h
    · exact main_error_validation env s _ _ _
  · exact main_error_validation env s _ _ _

theorem after_update_event_validated (env : Env) (s : Store) (pkg : PkgDict)
    (pid : String) (md : MetadataDict) :
    (Event.publish pid md ∈ (after_update env s pkg).events ∨
     Event.update pid md ∈ (after_update env s pkg).events) →
    validate_metadata md = .ok () := by
  unfold after_update
  dsimp only
  split
  · split
    · intro h; simp at h
    · exact main_event_validated env s _ _ _ pid md
  · exact main_event_validated env s _ _ _ pid md

/-! ### The claims -/

/-- Claim C1: for every dataset id, after any sequence of `after_create`
and `after_update` invocations, at most one DOI Record exists for that
dataset id; both handlers preserve the invariant at every step (also
when the invocation raises: the store reached at the raise still
satisfies it). -/
theorem C1_at_most_one_doi_record :
    (∀ env store pkg, InvariantStore store →
        InvariantStore (after_create env store pkg).2) ∧
    (∀ env store pkg, InvariantStore store →
        InvariantStore (after_update env store pkg).store) ∧
    (∀ store ops, InvariantStore store → InvariantStore (run store ops)) :=
  ⟨fun env _ pkg h => inv_after_create env pkg h,
   fun env _ pkg h => inv_after_update env pkg h,
   fun _ ops h => inv_run ops h⟩

/-- Witness for C1 on a concrete two-invocation history from the empty
table. -/
theorem C1_at_most_one_doi_record_witness :
    countFor
      (run [] [Op.create envBase pkgAuto, Op.update envRegOk pkgUserDoi])
      "d1" ≤ 1 :=
  C1_at_most_one_doi_record.2.2 []
    [Op.create envBase pkgAuto, Op.update envRegOk pkgUserDoi]
    (fun _ => Nat.zero_le 1) "d1"

/-- Claim C2 (the code, evaluated): `after_create` never creates a DOI
Record — `hasattr(pkg_dict, "doi_auto_create")` tests the dict object's
attributes, not its keys, so the guard is false for every snapshot,
including one that carries the auto-create flag. -/
theorem C2_after_create_creates_nothing :
    pkgAuto.doi_auto_create = true ∧
    after_create envBase [] pkgAuto = (pkgAuto, []) ∧
    (∀ env store pkg, after_create env store pkg = (pkg, store)) :=
  ⟨rfl, rfl, fun _ _ _ => rfl⟩

/-- Claim C3 (the code, evaluated at the failing input): invoking
`after_update` with the `doi_auto_create` key and no existing DOI Record
mints and persists a record, but then raises `AttributeError` (the
minted record is discarded, the local `doi` is still `None` at
`pkg_dict['identifier'] = doi.identifier`), so the snapshot is never
stamped and the handler does not complete. -/
theorem C3_auto_create_raises_without_record :
    after_update envBase [] pkgAuto =
      ⟨.error .attributeError,
       [⟨"d1", ⟨10, "10.5072/M1"⟩, none⟩], []⟩ := rfl

/-- Claim C4 (the code, evaluated at the failing input): when no DOI
Record exists, the snapshot names a DOI, and
`record_existing_unique_identifier` fails, the handler falls through
into the publication branch with no record (the snapshot being active
and public) and raises `AttributeError` instead of returning. -/
theorem C4_publication_reached_without_record :
    envBase.regExistingOk = false ∧
    after_update envBase [] pkgUserDoi =
      ⟨.error .attributeError, [],
       [Event.registerExisting "d1" "10.5072/X"]⟩ :=
  ⟨rfl, rfl⟩

/-- Claim C5: in the publication branch (active, non-private snapshot,
validation passing): for an already-published record, an update call is
issued if and only if the payload built from the original snapshot
differs structurally from the payload built from the incoming one, and
no publish call is made; for an unpublished record, exactly one publish
call is issued unconditionally and (when the call succeeds) the
record's `published` timestamp becomes non-null. -/
theorem C5_publication_branch_calls (env : Env) (store : Store)
    (pkg orig : PkgDict) (d : DOIRecord)
    (hact : pkg.state.getD "active" = "active")
    (hpriv : pkg.priv.getD false = false)
    (hval : validate_metadata (build_metadata pkg d) = .ok ()) :
    (∀ t, d.published = some t →
      updateCount (publication env store pkg orig (some d)).events
        = (if build_metadata orig d = build_metadata pkg d then 0 else 1) ∧
      publishCount (publication env store pkg orig (some d)).events = 0) ∧
    (d.published = none →
      publishCount (publication env store pkg orig (some d)).events = 1 ∧
      (env.publishRaises = false → d.package_id = pkg.id → d ∈ store →
        ∃ r, r ∈ (publication env store pkg orig (some d)).store ∧
          r.package_id = pkg.id ∧ r.published.isSome = true)) := by
  have hcond : pkg.state.getD "active" = "active" ∧
      ¬pkg.priv.getD false = true := ⟨hact, by simp [hpriv]⟩
  constructor
  · intro t ht
    simp only [publication, if_pos hcond, hval, ht]
    by_cases hmd : build_metadata orig d = build_metadata pkg d
    · simp [hmd, updateCount, publishCount]
    · cases hu : (update_doi env pkg.id (build_metadata pkg d)).1 with
      | error e =>
        simp [hmd, hu, update_doi_events, updateCount, publishCount,
              List.filter_cons]
      | ok u =>
        simp [hmd, hu, update_doi_events, updateCount, publishCount,
              List.filter_cons, List.filter_append]
  · intro hpub
    simp only [publication, if_pos hcond, hval, hpub]
    constructor
    · cases hp : (publish_doi env store pkg.id (build_metadata pkg d)).1 with
      | error e =>
        simp [hp, publish_doi_events, publishCount, List.filter_cons]
      | ok u =>
        simp [hp, publish_doi_events, publishCount, List.filter_cons]
    · intro hraise hpid hmem
      refine ⟨{ d with published := some env.now }, ?_, by simpa using hpid, rfl⟩
      have hpd : publish_doi env store pkg.id (build_metadata pkg d) =
          (.ok (), store.map fun r =>
            if r.package_id = pkg.id then { r with published := some env.now }
            else r, [Event.publish pkg.id (build_metadata pkg d)]) := by
        simp [publish_doi, hraise]
      simp only [hpd]
      exact List.mem_map.2 ⟨d, hmem, by simp [hpid]⟩

/-- Witness for C5: an unchanged active snapshot over its published
record yields zero update calls. -/
theorem C5_publication_branch_calls_witness :
    updateCount
      (publication envBase [recPublishedP] pkgUnchanged origSnap
        (some recPublishedP)).events = 0 :=
  (((C5_publication_branch_calls envBase [recPublishedP] pkgUnchanged
      origSnap recPublishedP rfl rfl rfl).1 ⟨2024, 1, 1⟩ rfl).1).trans
    (if_pos rfl)

/-- Claim C6 (the code, evaluated at the failing input): the line-110
check `doi.identifier is not pkg_dict['identifier']` compares object
identity; for a record identifier and a snapshot identifier that are
equal strings but distinct objects, the record is deleted (and
re-registration attempted) even though the identifiers are equal. -/
theorem C6_identity_compare_deletes_equal_identifier :
    recPublished.identifier.val = "10.5072/FK2" ∧
    pkgSameDoiValue.identifier = some ⟨2, "10.5072/FK2"⟩ ∧
    after_update envBase [recPublished] pkgSameDoiValue =
      ⟨.ok { pkgSameDoiValue with
               metadata_created := origSnap.metadata_created },
       [], [Event.registerExisting "d1" "10.5072/FK2"]⟩ :=
  ⟨rfl, rfl, rfl⟩

/-- Claim C7 as stated is false: a single `after_update` invocation can
make two outbound Registration Service calls — registering the
user-supplied identifier and then publishing it. -/
theorem C7_two_calls_counterexample :
    rsCallCount (after_update envRegOk [] pkgUserDoi).events = 2 := rfl

/-- Claim C7 (amended): every `after_update` invocation makes at most
one publish-or-update call, and at most two Registration Service calls
in total (a register-existing call may be followed by one publish or
update call in the same invocation). -/
theorem C7_call_bound (env : Env) (store : Store) (pkg : PkgDict) :
    pubUpdCount (after_update env store pkg).events ≤ 1 ∧
    rsCallCount (after_update env store pkg).events ≤ 2 :=
  after_update_counts env store pkg

/-- Claim C8: a validation failure in the publication branch surfaces
as a blocking error and no publish or update call is made in that
invocation; moreover every publish or update payload that is sent
passed `validate_metadata` beforehand. (Validation does not precede the
register-existing call of earlier branches, which carries no metadata
payload.) -/
theorem C8_validation_blocks_external_calls (env : Env) (store : Store)
    (pkg : PkgDict) :
    ((after_update env store pkg).result = .error .validationError →
      pubUpdCount (after_update env store pkg).events = 0) ∧
    (∀ pid md,
      (Event.publish pid md ∈ (after_update env store pkg).events ∨
       Event.update pid md ∈ (after_update env store pkg).events) →
      validate_metadata md = .ok ()) :=
  ⟨after_update_error_validation env store pkg,
   fun pid md => after_update_event_validated env store pkg pid md⟩

/-- Witness for C8: a snapshot with a missing title over its published
record raises the validation error and makes no publish or update
call. -/
theorem C8_validation_blocks_external_calls_witness :
    pubUpdCount (after_update envBase [recPublishedP] pkgNoTitle).events = 0 :=
  (C8_validation_blocks_external_calls envBase [recPublishedP] pkgNoTitle).1 rfl

/-- Claim C9 as stated is false at a concrete input: with an `https`
site URL the `domain` annotation keeps the `https://` prefix (only the
literal `http://` is removed), and for an unpublished record the
`doi_date_published` key is present with a `None` value rather than
absent. -/
theorem C9_https_and_null_date_counterexample :
    (after_show envHttps [recUnpublished] showPkgPlain).1.domain
      ≠ some "example.com" ∧
    (after_show envHttps [recUnpublished] showPkgPlain).1.doi_date_published
      ≠ none := by
  constructor <;> decide

/-- Claim C9 (amended): `after_show` is a pure read — the store is
returned unchanged; with no DOI Record the snapshot is untouched; with
a record the snapshot gains exactly the record's identifier, the
published boolean, the configured site URL with the literal substring
`http://` removed (an `https://` prefix survives), the key
`doi_date_published` holding the `YYYY-MM-DD` publication date or a
null value when unpublished, and the configured publisher label. -/
theorem C9_after_show_annotations (env : Env) (store : Store)
    (pkg : ShowPkg) :
    (after_show env store pkg).2 = store ∧
    (get_doi store pkg.pkg.id = none → (after_show env store pkg).1 = pkg) ∧
    (∀ d, get_doi store pkg.pkg.id = some d →
      (after_show env store pkg).1 =
        { pkg with
            doi := some d.identifier.val,
            doi_status := some d.published.isSome,
            domain := some (pyReplace env.site_url "http://" ""),
            doi_date_published := some (d.published.map formatYMD),
            doi_publisher := some env.publisher }) := by
  cases hfind : get_doi store pkg.pkg.id with
  | none =>
    refine ⟨?_, fun _ => ?_, fun d hd => ?_⟩
    · simp [after_show, hfind]
    · simp [after_show, hfind]
    · simp at hd
  | some d0 =>
    refine ⟨?_, fun hnone => ?_, fun d hd => ?_⟩
    · simp [after_show, hfind]
    · simp at hnone
    · injection hd with hd
      subst hd
      simp [after_show, hfind]

/-- Witness for C9 on a concrete store with an unpublished record. -/
theorem C9_after_show_annotations_witness :
    (after_show envHttps [recUnpublished] showPkgPlain).1 =
      { showPkgPlain with
          doi := some recUnpublished.identifier.val,
          doi_status := some recUnpublished.published.isSome,
          domain := some (pyReplace envHttps.site_url "http://" ""),
          doi_date_published := some (recUnpublished.published.map formatYMD),
          doi_publisher := some envHttps.publisher } :=
  (C9_after_show_annotations envHttps [recUnpublished] showPkgPlain).2.2
    recUnpublished rfl

/-- Claim C10: in the unpublished-record publication path, the
`DataCite DOI created` notification is emitted strictly before the
publish call (it is the first event, the publish call the second), so
the notification is in the trace even when the publish call raises. -/
theorem C10_flash_before_publish (env : Env) (store : Store)
    (pkg orig : PkgDict) (d : DOIRecord)
    (hact : pkg.state.getD "active" = "active")
    (hpriv : pkg.priv.getD false = false)
    (hval : validate_metadata (build_metadata pkg d) = .ok ())
    (hpub : d.published = none) :
    (publication env store pkg orig (some d)).events =
      [Event.flashSuccess "DataCite DOI created",
       Event.publish pkg.id (build_metadata pkg d)] ∧
    (env.publishRaises = true →
      (publication env store pkg orig (some d)).result
        = .error .dataCiteError) := by
  have hcond : pkg.state.getD "active" = "active" ∧
      ¬pkg.priv.getD false = true := ⟨hact, by simp [hpriv]⟩
  constructor
  · simp only [publication, if_pos hcond, hval, hpub]
    cases hp : (publish_doi env store pkg.id (build_metadata pkg d)).1 <;>
      simp [hp, publish_doi_events]
  · intro hraise
    simp [publication, hval, hpub, publish_doi, hraise, hact, hpriv]

/-- Witness for C10 with a failing publish call: the notification is
still the first element of the trace. -/
theorem C10_flash_before_publish_witness :
    (publication { envBase with publishRaises := true } [recUnpublished]
      pkgUnchanged origSnap (some recUnpublished)).events =
      [Event.flashSuccess "DataCite DOI created",
       Event.publish pkgUnchanged.id
         (build_metadata pkgUnchanged recUnpublished)] :=
  (C10_flash_before_publish { envBase with publishRaises := true }
    [recUnpublished] pkgUnchanged origSnap recUnpublished rfl rfl rfl rfl).1

end CkanextDoi
